import Mathlib

/-
Verification development for the GLTF model-loading and rendering pipeline of
the AINA desktop-avatar application (source file: src/src/model_viewer.py,
class ModelViewer).

The Python code is shallowly embedded as executable Lean definitions:

* Python `dict[int, V]` fields become association lists `List (Nat × V)` with
  update-in-place-or-append insertion, matching dict key/value semantics.
* Raw binary buffers become `List Nat` (byte values).
* IEEE float decoding (numpy `frombuffer` with dtype float32 / float16) is
  modelled exactly on bit patterns, producing rationals.  Bit patterns with an
  all-ones exponent (infinities and NaNs) are mapped by the same formula; no
  theorem below depends on such patterns.
* OpenGL calls (buffer/texture deletion, draw calls) have no observable
  effect on the modelled state beyond the dictionaries that track them; the
  draw-call choice made by `render_part_with_vbos` is modelled by `DrawCmd`.
-/

/- The arithmetic primitives of `Rat` are compiler-accelerated and marked
irreducible; restore definitional unfolding inside this file so that concrete
states of the embedding evaluate with `decide`. -/
attribute [local semireducible] Rat.mul Rat.add Rat.sub Rat.inv

set_option maxRecDepth 1000000

namespace Aina

/-! ## Association lists modelling Python dictionaries

`alookup`, `ainsert`, `aerase`, `akeys` model `d[k]`/`d.get(k)`,
`d[k] = v`, `d.pop(k, None)` and `d.keys()` on a `dict` with `Nat` keys:
insertion replaces in place when the key is present and appends otherwise,
exactly the observable behaviour of a Python dict. -/

def alookup {α : Type} : List (Nat × α) → Nat → Option α
  | [], _ => none
  | (k', v) :: rest, k => if k' = k then some v else alookup rest k

def ainsert {α : Type} : List (Nat × α) → Nat → α → List (Nat × α)
  | [], k, v => [(k, v)]
  | (k', v') :: rest, k, v =>
      if k' = k then (k, v) :: rest else (k', v') :: ainsert rest k v

def aerase {α : Type} (m : List (Nat × α)) (k : Nat) : List (Nat × α) :=
  m.filter (fun kv => kv.1 ≠ k)

def akeys {α : Type} (m : List (Nat × α)) : List Nat :=
  m.map (fun kv => kv.1)

theorem alookup_ainsert {α : Type} (m : List (Nat × α)) (k k' : Nat) (v : α) :
    alookup (ainsert m k v) k' = if k' = k then some v else alookup m k' := by
  induction m with
  | nil =>
    by_cases h : k' = k
    · subst h; simp [ainsert, alookup]
    · simp [ainsert, alookup, h, Ne.symm h]
  | cons hd tl ih =>
    obtain ⟨k₀, v₀⟩ := hd
    by_cases h0 : k₀ = k
    · subst h0
      by_cases h : k' = k₀
      · subst h; simp [ainsert, alookup]
      · simp [ainsert, alookup, h, Ne.symm h]
    · by_cases h : k' = k₀
      · subst h
        simp [ainsert, alookup, h0, Ne.symm h0]
      · simp [ainsert, alookup, h0, h, Ne.symm h, ih]

theorem alookup_aerase {α : Type} (m : List (Nat × α)) (k k' : Nat) :
    alookup (aerase m k) k' = if k' = k then none else alookup m k' := by
  induction m with
  | nil =>
    by_cases h : k' = k <;> simp [aerase, alookup, h]
  | cons hd tl ih =>
    obtain ⟨k₀, v₀⟩ := hd
    simp only [aerase] at ih ⊢
    simp only [List.filter_cons]
    by_cases h0 : k₀ = k
    · subst h0
      rw [if_neg (by simp)]
      rw [ih]
      by_cases h : k' = k₀
      · simp [h]
      · simp [alookup, h, Ne.symm h]
    · rw [if_pos (by simp [h0])]
      by_cases h : k₀ = k'
      · subst h
        simp [alookup, h0]
      · simp only [alookup, if_neg h]
        rw [ih]

/-- Folding insertions of `f k` for every `k < n` into a map: every id below
`n` ends up present with value `f id`, all other lookups are untouched. -/
theorem alookup_foldl_ainsert_range (f : Nat → Bool) (n : Nat)
    (init : List (Nat × Bool)) (id : Nat) :
    alookup ((List.range n).foldl (fun m k => ainsert m k (f k)) init) id =
      if id < n then some (f id) else alookup init id := by
  induction n generalizing init with
  | zero => simp
  | succ n ih =>
    rw [List.range_succ, List.foldl_append]
    simp only [List.foldl_cons, List.foldl_nil]
    rw [alookup_ainsert]
    by_cases h : id = n
    · subst h
      simp
    · rw [if_neg h, ih]
      by_cases h2 : id < n
      · rw [if_pos h2, if_pos (Nat.lt_succ_of_lt h2)]
      · rw [if_neg h2, if_neg (fun hlt => h (Nat.lt_succ_iff_lt_or_eq.mp hlt |>.resolve_left h2))]

/-- Folding erasures over a list of keys removes exactly those keys. -/
theorem alookup_foldl_aerase {α : Type} (L : List Nat) (m : List (Nat × α)) (id : Nat) :
    alookup (L.foldl (fun m k => aerase m k) m) id =
      if id ∈ L then none else alookup m id := by
  induction L generalizing m with
  | nil => simp
  | cons hd tl ih =>
    simp only [List.foldl_cons, ih, alookup_aerase]
    by_cases h1 : id ∈ tl
    · simp [h1]
    · by_cases h2 : id = hd <;> simp [h1, h2]

/-! ## Binary decoding

`np.frombuffer(bytes, dtype)` splits a byte string into fixed-width
little-endian words and fails when the byte count is not a multiple of the
word width; `reshape(count, k)` fails unless the element count is exactly
`count * k`.  Both failure modes surface as exceptions that
`extract_primitive_mesh` catches, returning `None`. -/

/-- Split off exactly `k` elements, returning them and the remainder. -/
def takeExact {α : Type} : Nat → List α → Option (List α × List α)
  | 0, rest => some ([], rest)
  | _ + 1, [] => none
  | n + 1, b :: rest => (takeExact n rest).map (fun p => (b :: p.1, p.2))

/-- Chunking worker, structurally recursive on a fuel counter that the
wrapper seeds with the list length (each step consumes at least one element
since `k ≥ 1` there). -/
def chunkAux {α : Type} (k : Nat) : Nat → List α → Option (List (List α))
  | _, [] => some []
  | 0, _ :: _ => none
  | fuel + 1, b :: rest =>
    match takeExact k (b :: rest) with
    | none => none
    | some (c, rest') => (chunkAux k fuel rest').map (fun r => c :: r)

def chunkExact {α : Type} (k : Nat) (bs : List α) : Option (List (List α)) :=
  if k = 0 then none else chunkAux k bs.length bs

/-- Little-endian value of a byte list. -/
def leVal (bs : List Nat) : Nat := bs.foldr (fun b acc => b + 256 * acc) 0

/-- Power of two with an integer exponent, as a rational. -/
def pow2z (n : Int) : ℚ := if 0 ≤ n then (2 : ℚ) ^ n.toNat else 1 / (2 : ℚ) ^ (-n).toNat

/-- Value of an IEEE-754 bit pattern `w` with the given exponent width,
mantissa width and bias.  Patterns whose exponent field is all ones encode
infinities and NaNs; they are outside the domain this development relies on
and are mapped by the same normal-number formula. -/
def decodeIeee (expBits mantBits bias : Nat) (w : Nat) : ℚ :=
  let sign := w / 2 ^ (expBits + mantBits) % 2
  let exp := w / 2 ^ mantBits % 2 ^ expBits
  let mant := w % 2 ^ mantBits
  let mag : ℚ :=
    if exp = 0 then (mant : ℚ) * pow2z (1 - (bias : Int) - (mantBits : Int))
    else ((2 ^ mantBits + mant : Nat) : ℚ) * pow2z ((exp : Int) - (bias : Int) - (mantBits : Int))
  if sign = 1 then -mag else mag

/-- `np.float32` value of a 32-bit little-endian word. -/
def decodeFloat32 (w : Nat) : ℚ := decodeIeee 8 23 127 w

/-- `np.float16` value of a 16-bit little-endian word. -/
def decodeFloat16 (w : Nat) : ℚ := decodeIeee 5 10 15 w

/-- `np.frombuffer` with a `width`-byte float dtype decoded by `f`. -/
def decodeWords (width : Nat) (f : Nat → ℚ) (bs : List Nat) : Option (List ℚ) :=
  (chunkExact width bs).map (fun cs => cs.map (fun c => f (leVal c)))

/-- `reshape(-1, 3)`: regroup a flat list into consecutive triples, failing
when the length is not a multiple of three. -/
def toTriples {α : Type} : List α → Option (List (α × α × α))
  | [] => some []
  | a :: b :: c :: rest => (toTriples rest).map (fun ts => (a, b, c) :: ts)
  | _ => none

/-- Regroup a flat list into consecutive pairs (for `reshape(count, 2)`). -/
def toPairs {α : Type} : List α → Option (List (α × α))
  | [] => some []
  | a :: b :: rest => (toPairs rest).map (fun ps => (a, b) :: ps)
  | _ => none

/-- Row-major flattening of a triple list (`np.array(...).flatten()` on an
`(n, 3)` array). -/
def flattenTriples {α : Type} : List (α × α × α) → List α
  | [] => []
  | t :: rest => t.1 :: t.2.1 :: t.2.2 :: flattenTriples rest

/-! ## GLTF data model

Mirrors the parts of the pygltflib object graph that
`extract_primitive_mesh` and `load_gltf_model` read.  Optional attributes
(`hasattr(...) and ... is not None` checks on pygltflib fields that default
to `None`) become `Option` fields. -/

structure GltfBuffer where
  uri : Option String
deriving Repr, DecidableEq

structure BufferView where
  byteOffset : Nat
  byteLength : Nat
deriving Repr, DecidableEq

structure Accessor where
  bufferView : Nat
  byteOffset : Nat
  count : Nat
  componentType : Nat
  normalized : Bool
deriving Repr, DecidableEq

structure Primitive where
  position : Option Nat
  normal : Option Nat
  texcoord0 : Option Nat
  indices : Option Nat
  material : Option Nat
deriving Repr, DecidableEq

structure GltfMesh where
  name : Option String
  primitives : List Primitive
deriving Repr, DecidableEq

structure Gltf where
  buffers : List GltfBuffer
  bufferViews : List BufferView
  accessors : List Accessor
  meshes : List GltfMesh
  binaryBlob : Option (List Nat)
deriving Repr, DecidableEq

/-- One extracted drawable part (the `trimesh.Trimesh` built at the end of
`extract_primitive_mesh`).  trimesh converts a `faces=None` argument into an
empty `(0, 3)` face array, so `faces` is a plain list that is empty when the
primitive had no index accessor.  `vertexNormals` keeps only what was decoded
from the NORMAL attribute; trimesh auto-derives vertex normals when none are
supplied, and no claim below depends on those derived values. -/
structure PartMesh where
  vertices : List (ℚ × ℚ × ℚ)
  faces : List (Nat × Nat × Nat)
  vertexNormals : Option (List (ℚ × ℚ × ℚ))
  uv : Option (List (ℚ × ℚ))
deriving Repr, DecidableEq

/-! ## Filesystem environment

`Env` stands in for the filesystem: `files` holds raw binary files readable
with `open(...).read()`, `gltfs` holds the asset files that `GLTF2().load`
parses successfully.  `os.path.exists` is true on either. -/

structure Env where
  files : List (String × List Nat)
  gltfs : List (String × Gltf)
deriving Repr, DecidableEq

def Env.readFile (e : Env) (p : String) : Option (List Nat) :=
  (e.files.find? (fun f => f.1 == p)).map (fun f => f.2)

def Env.findGltf (e : Env) (p : String) : Option Gltf :=
  (e.gltfs.find? (fun f => f.1 == p)).map (fun f => f.2)

def Env.pathExists (e : Env) (p : String) : Bool :=
  (e.files.find? (fun f => f.1 == p)).isSome ||
    (e.gltfs.find? (fun f => f.1 == p)).isSome

/-- Characters before the last slash of a path (and `[]` when there is no
slash), working on the character list. -/
def beforeLastSlash (cs : List Char) : List Char :=
  match cs.reverse.dropWhile (fun c => c ≠ '/') with
  | [] => []
  | _ :: rest => rest.reverse

/-- `os.path.dirname`: everything before the final slash, `""` when there is
no slash. -/
def dirname (p : String) : String := String.mk (beforeLastSlash p.data)

/-- `os.path.join` for the relative, slash-separated paths the viewer uses. -/
def pathJoin (a b : String) : String := if a = "" then b else a ++ "/" ++ b

/-- `path.lower().endswith(('.gltf', '.glb'))`, computed on character lists. -/
def isGltfPath (p : String) : Bool :=
  let low := p.data.map Char.toLower
  (".gltf".data.isSuffixOf low) || (".glb".data.isSuffixOf low)

/-! ## Accessor decoding (`extract_primitive_mesh`, lines 339-440)

The code reads each attribute with
`buffer_data[offset : offset + bufferView.byteLength]` followed by
`np.frombuffer` under a dtype chosen from the component type, then a
`reshape`.  Any failure raises, is caught by the surrounding `try`, and turns
into `None` for the whole primitive. -/

/-- Python slice `buf[off : off + len]` (clipped at the end of the list). -/
def sliceBytes (buf : List Nat) (off len : Nat) : List Nat := (buf.drop off).take len

/-- `dtype = np.float32 if pos_type == 5126 else np.float16`: width and
decoder of the dtype substituted for the POSITION component type. -/
def posWidth (componentType : Nat) : Nat :=
  if componentType = 5126 then 4 else 2

def posDecoder (componentType : Nat) : Nat → ℚ :=
  if componentType = 5126 then decodeFloat32 else decodeFloat16

/-- Lines 370-380: decode the POSITION accessor and `reshape(pos_count, 3)`. -/
def decodePositions (gltf : Gltf) (bufferData : List Nat) (accIdx : Nat) :
    Option (List (ℚ × ℚ × ℚ)) :=
  (gltf.accessors[accIdx]?).bind fun acc =>
  (gltf.bufferViews[acc.bufferView]?).bind fun bv =>
  (decodeWords (posWidth acc.componentType) (posDecoder acc.componentType)
      (sliceBytes bufferData (bv.byteOffset + acc.byteOffset) bv.byteLength)).bind fun vals =>
  if vals.length = acc.count * 3 then toTriples vals else none

/-- `{5121: np.uint8, 5123: np.uint16, 5125: np.uint32}.get(idx_type, np.uint32)`:
byte width of the dtype substituted for the index component type; every
unlisted type falls back to the 4-byte unsigned dtype. -/
def idxWidth (componentType : Nat) : Nat :=
  if componentType = 5121 then 1 else if componentType = 5123 then 2 else 4

/-- Lines 385-394: decode the index accessor into flat unsigned values. -/
def decodeIndexValues (gltf : Gltf) (bufferData : List Nat) (accIdx : Nat) :
    Option (List Nat) :=
  (gltf.accessors[accIdx]?).bind fun acc =>
  (gltf.bufferViews[acc.bufferView]?).bind fun bv =>
  (chunkExact (idxWidth acc.componentType)
      (sliceBytes bufferData (bv.byteOffset + acc.byteOffset) bv.byteLength)).map
    (fun cs => cs.map leVal)

/-- Lines 399-406: decode NORMAL, always under `np.float32`, then
`reshape(norm_count, 3)`. -/
def decodeNormals (gltf : Gltf) (bufferData : List Nat) (accIdx : Nat) :
    Option (List (ℚ × ℚ × ℚ)) :=
  (gltf.accessors[accIdx]?).bind fun acc =>
  (gltf.bufferViews[acc.bufferView]?).bind fun bv =>
  (decodeWords 4 decodeFloat32
      (sliceBytes bufferData (bv.byteOffset + acc.byteOffset) bv.byteLength)).bind fun vals =>
  if vals.length = acc.count * 3 then toTriples vals else none

/-- Lines 410-421: decode TEXCOORD_0, always under `np.float32`,
`reshape(uv_count, 2)`, then flip the V channel (`uv[:, 1] = 1.0 - uv[:, 1]`). -/
def decodeUVs (gltf : Gltf) (bufferData : List Nat) (accIdx : Nat) :
    Option (List (ℚ × ℚ)) :=
  (gltf.accessors[accIdx]?).bind fun acc =>
  (gltf.bufferViews[acc.bufferView]?).bind fun bv =>
  (decodeWords 4 decodeFloat32
      (sliceBytes bufferData (bv.byteOffset + acc.byteOffset) bv.byteLength)).bind fun vals =>
  (if vals.length = acc.count * 2 then toPairs vals else none).bind fun uvs =>
  some (uvs.map (fun p => (p.1, 1 - p.2)))

/-- Lines 347-363: pick the embedded binary blob when the first buffer has no
URI, otherwise read the external buffer file resolved against the model's
directory (`None` when the file is absent). -/
def resolveBufferData (env : Env) (modelPath : String) (gltf : Gltf) :
    Option (List Nat) :=
  match gltf.buffers[0]? with
  | none => none
  | some b =>
    match b.uri with
    | none => gltf.binaryBlob
    | some uri => env.readFile (pathJoin (dirname modelPath) uri)

/-- The face list for an optional index accessor: absent indices give the
empty face list (trimesh converts `faces=None` to an empty `(0, 3)` array),
present indices are decoded and regrouped by `reshape(-1, 3)`. -/
def extractFaces (gltf : Gltf) (bufferData : List Nat) :
    Option Nat → Option (List (Nat × Nat × Nat))
  | none => some []
  | some ii => (decodeIndexValues gltf bufferData ii).bind toTriples

/-- The optional NORMAL stream: absent attribute is recorded as absent, a
present one must decode or the whole primitive fails. -/
def extractOptNormals (gltf : Gltf) (bufferData : List Nat) :
    Option Nat → Option (Option (List (ℚ × ℚ × ℚ)))
  | none => some none
  | some ni => (decodeNormals gltf bufferData ni).map some

/-- The optional TEXCOORD_0 stream, V-flipped by `decodeUVs`. -/
def extractOptUVs (gltf : Gltf) (bufferData : List Nat) :
    Option Nat → Option (Option (List (ℚ × ℚ)))
  | none => some none
  | some ti => (decodeUVs gltf bufferData ti).map some

/-- Lines 339-440, `extract_primitive_mesh`: decode one primitive into a
`PartMesh`, or `None` when any step fails (the body runs in a single
`try`/`except` that logs and returns `None`). -/
def extractPrimitiveMesh (env : Env) (modelPath : String) (gltf : Gltf)
    (prim : Primitive) : Option PartMesh :=
  if gltf.buffers.isEmpty || gltf.bufferViews.isEmpty then none
  else
    (resolveBufferData env modelPath gltf).bind fun bufferData =>
    (prim.position).bind fun posIdx =>
    (decodePositions gltf bufferData posIdx).bind fun vertices =>
    (extractFaces gltf bufferData prim.indices).bind fun faces =>
    (extractOptNormals gltf bufferData prim.normal).bind fun normals =>
    (extractOptUVs gltf bufferData prim.texcoord0).bind fun uv =>
    some { vertices := vertices, faces := faces, vertexNormals := normals, uv := uv }

/-! ## Viewer state (`ModelViewer` instance fields)

Camera fields (rotation, translate, zoom) are never read by the claims under
verification and are omitted; all per-part dictionaries and the mesh
collections are kept.  OpenGL handles (texture ids, VBO objects) are
represented by the decoded data they wrap. -/

structure ViewerState where
  modelPath : String
  mesh : Option PartMesh
  meshes : List PartMesh
  textureIds : List (Nat × Nat)
  materialMap : List (Nat × Nat)
  partVisibility : List (Nat × Bool)
  partNames : List (Nat × String)
  vertexVbos : List (Nat × Option (List (ℚ × ℚ × ℚ)))
  uvVbos : List (Nat × Option (List (ℚ × ℚ)))
  normalVbos : List (Nat × Option (List (ℚ × ℚ × ℚ)))
  indexBuffers : List (Nat × Option (List Nat))
  numFaces : List (Nat × Nat)
deriving Repr, DecidableEq

/-- Lines 284-308, `clear_model_data`: drop the mesh references, delete and
forget every texture handle and VBO (the `glDeleteTextures`/`vbo.delete()`
calls free GPU memory and leave no modelled trace), clear index arrays, face
counts and part names, and reset `part_visibility` to an empty dict. -/
def clearModelData (s : ViewerState) : ViewerState :=
  { s with
    mesh := none
    meshes := []
    textureIds := []
    materialMap := []
    vertexVbos := []
    uvVbos := []
    normalVbos := []
    indexBuffers := []
    numFaces := []
    partNames := []
    partVisibility := [] }

/-- Lines 492-537, `create_vbos_for_part`: record the vertex VBO (always), the
normal VBO (trimesh always exposes a `vertex_normals` array, auto-derived from
the faces when the NORMAL attribute was absent — the auto-derived values are
modelled as `[]` since nothing reads them), the UV VBO (only when UV data is
present and nonempty), and — because a trimesh face array is never `None` —
the flattened index buffer and the face count. -/
def createVbosForPart (s : ViewerState) (partId : Nat) (mesh : PartMesh) :
    ViewerState :=
  { s with
    vertexVbos := ainsert s.vertexVbos partId (some mesh.vertices)
    normalVbos := ainsert s.normalVbos partId (some (mesh.vertexNormals.getD []))
    uvVbos := ainsert s.uvVbos partId
      (match mesh.uv with
       | some l => if l.length > 0 then some l else none
       | none => none)
    indexBuffers := ainsert s.indexBuffers partId (some (flattenTriples mesh.faces))
    numFaces := ainsert s.numFaces partId mesh.faces.length }

/-- Lines 310-337, `apply_visibility_settings`.  The same-model and new-model
branches run the identical per-part loop (preserve the snapshot value when the
id is in `original_visibility`, else default `True`); they are written once
here.  Only the new-model branch additionally pops the obsolete ids
(`config_parts - current_parts`). -/
def applyVisibilitySettings (original : List (Nat × Bool)) (isSameModel : Bool)
    (s : ViewerState) : ViewerState :=
  let currentParts := List.range s.meshes.length
  let vis1 := currentParts.foldl
    (fun m partId => ainsert m partId ((alookup original partId).getD true))
    s.partVisibility
  let vis2 :=
    if isSameModel then vis1
    else ((akeys original).filter (fun k => !currentParts.contains k)).foldl
      (fun m k => aerase m k) vis1
  { s with partVisibility := vis2 }

/-! ## Scene normalisation (`scale_model`, lines 735-770) -/

def vmin (a b : ℚ × ℚ × ℚ) : ℚ × ℚ × ℚ :=
  (min a.1 b.1, min a.2.1 b.2.1, min a.2.2 b.2.2)

def vmax (a b : ℚ × ℚ × ℚ) : ℚ × ℚ × ℚ :=
  (max a.1 b.1, max a.2.1 b.2.1, max a.2.2 b.2.2)

def vadd (a b : ℚ × ℚ × ℚ) : ℚ × ℚ × ℚ := (a.1 + b.1, a.2.1 + b.2.1, a.2.2 + b.2.2)

def vsub (a b : ℚ × ℚ × ℚ) : ℚ × ℚ × ℚ := (a.1 - b.1, a.2.1 - b.2.1, a.2.2 - b.2.2)

def vscale (c : ℚ) (a : ℚ × ℚ × ℚ) : ℚ × ℚ × ℚ := (c * a.1, c * a.2.1, c * a.2.2)

/-- `max(size_range)` over the three axes. -/
def maxComp (a : ℚ × ℚ × ℚ) : ℚ := max a.1 (max a.2.1 a.2.2)

/-- `np.vstack([mesh.vertices for mesh in self.meshes ...])`. -/
def allVerticesOf (meshes : List PartMesh) : List (ℚ × ℚ × ℚ) :=
  meshes.foldl (fun acc m => acc ++ m.vertices) []

/-- One iteration of the `for part_id, mesh in enumerate(self.meshes)` loop in
`scale_model`: apply `vertices = vertices * scale - centroid * scale` to a
nonempty part and re-create its VBOs when it has a live vertex VBO. -/
def scaleStep (scale : ℚ) (centroid : ℚ × ℚ × ℚ) (s : ViewerState) (partId : Nat) :
    ViewerState :=
  match s.meshes[partId]? with
  | none => s
  | some m =>
    if m.vertices.length > 0 then
      let m' := { m with
        vertices := m.vertices.map (fun v => vsub (vscale scale v) (vscale scale centroid)) }
      let s' := { s with meshes := s.meshes.set partId m' }
      match alookup s'.vertexVbos partId with
      | some (some _) => createVbosForPart s' partId m'
      | _ => s'
    else s

/-- Lines 735-770, `scale_model`: compute overall bounds and centroid over all
mesh vertices, skip entirely when there are no meshes, no vertices, or the
bounds have zero extent, otherwise scale to a 4.0-unit extent and recentre
every part. -/
def scaleModel (s : ViewerState) : ViewerState :=
  if s.meshes.isEmpty then s
  else
    match allVerticesOf s.meshes with
    | [] => s
    | v :: vs =>
      let minB := vs.foldl vmin v
      let maxB := vs.foldl vmax v
      let sizeRange := vsub maxB minB
      if maxComp sizeRange = 0 then s
      else
        let scale := 4 / maxComp sizeRange
        let n := (v :: vs).length
        let sum := (v :: vs).foldl vadd (0, 0, 0)
        let centroid := (sum.1 / n, sum.2.1 / n, sum.2.2 / n)
        (List.range s.meshes.length).foldl (scaleStep scale centroid) s

/-! ## Loading (`load_gltf_model` lines 248-282, `load_model` lines 196-246) -/

/-- The `"Mesh_<i>_Prim_<j>"` fallback name (a pygltflib empty-string name is
falsy in Python and also falls back). -/
def partNameOf (gm : GltfMesh) (meshIdx primIdx : Nat) : String :=
  match gm.name with
  | some n =>
      if n = "" then "Mesh_" ++ toString meshIdx ++ "_Prim_" ++ toString primIdx else n
  | none => "Mesh_" ++ toString meshIdx ++ "_Prim_" ++ toString primIdx

/-- The nested `for mesh_idx ... for prim_idx ...` loops of `load_gltf_model`,
flattened in iteration order into a single list of
`((mesh_idx, gltf_mesh), (prim_idx, primitive))` entries. -/
def primList (gltf : Gltf) : List ((Nat × GltfMesh) × (Nat × Primitive)) :=
  (gltf.meshes.enum.map (fun mg => mg.2.primitives.enum.map (fun pp => (mg, pp)))).flatten

/-- Loop body of `load_gltf_model` (lines 260-275): take the next part id,
record the material binding if any, extract the primitive, and on success
record its name, append the mesh, default its visibility to `True` when the
id is absent, and create its VBOs. -/
def loadPrimitive (env : Env) (path : String) (gltf : Gltf) (s : ViewerState)
    (entry : (Nat × GltfMesh) × (Nat × Primitive)) : ViewerState :=
  let meshIdx := entry.1.1
  let gm := entry.1.2
  let primIdx := entry.2.1
  let prim := entry.2.2
  let partId := s.meshes.length
  let s1 :=
    match prim.material with
    | some m => { s with materialMap := ainsert s.materialMap partId m }
    | none => s
  match extractPrimitiveMesh env path gltf prim with
  | none => s1
  | some mesh =>
    let s2 := { s1 with
      partNames := ainsert s1.partNames partId (partNameOf gm meshIdx primIdx)
      meshes := s1.meshes ++ [mesh]
      partVisibility :=
        if (alookup s1.partVisibility partId).isSome then s1.partVisibility
        else ainsert s1.partVisibility partId true }
    createVbosForPart s2 partId mesh

/-- Lines 248-282, `load_gltf_model`: parse the asset (an unparseable file
raises, is caught, and leaves the state as it was), walk every primitive, and
when at least one part loaded set `self.mesh`, run `scale_model` (and the
animation placeholder).  Texture loading (`load_gltf_textures`) only fills
the texture dictionary from image files and is not modelled: no claim reads
texture contents. -/
def loadGltfModel (env : Env) (path : String) (s : ViewerState) : ViewerState :=
  match env.findGltf path with
  | none => s
  | some gltf =>
    if gltf.meshes.isEmpty then s
    else
      let s1 := (primList gltf).foldl (loadPrimitive env path gltf) s
      if s1.meshes.isEmpty then s1
      else scaleModel { s1 with mesh := s1.meshes[0]? }

/-- Lines 196-246, `load_model`: abort (before any clearing) when the path
does not exist; otherwise snapshot the visibility map and the same-model
flag, clear the old model data, set the new path, run the GLTF loader, and
reconcile visibility.  The non-GLTF branch hands the file to the external
`trimesh.load` and is outside the modelled scope; every claim below loads
`.gltf`/`.glb` assets. -/
def loadModel (env : Env) (path : String) (s : ViewerState) : ViewerState :=
  if env.pathExists path = false then s
  else
    let originalVisibility := s.partVisibility
    let isSameModel := path == s.modelPath
    let s1 := { clearModelData s with modelPath := path }
    if isGltfPath path then
      applyVisibilitySettings originalVisibility isSameModel (loadGltfModel env path s1)
    else
      s1

/-! ## Rendering (`paintGL` lines 68-100, `render_part_with_vbos` lines 102-152) -/

/-- The draw call issued for one part by `render_part_with_vbos`:
`glDrawElements(GL_TRIANGLES, num_faces * 3, ...)` when an index buffer is
recorded, else `glDrawArrays(GL_TRIANGLES, 0, num_faces * 3)`. -/
inductive DrawCmd where
  | elements (count : Nat)
  | arrays (count : Nat)
deriving Repr, DecidableEq

def drawCommand (s : ViewerState) (partId : Nat) : DrawCmd :=
  match alookup s.indexBuffers partId with
  | some (some _) => DrawCmd.elements ((alookup s.numFaces partId).getD 0 * 3)
  | _ => DrawCmd.arrays ((alookup s.numFaces partId).getD 0 * 3)

/-- The part ids `paintGL` issues render calls for: every visible part when
`self.meshes` is nonempty, else the legacy single-part fallbacks. -/
def drawnParts (s : ViewerState) : List Nat :=
  if s.meshes.isEmpty = false then
    (List.range s.meshes.length).filter
      (fun partId => (alookup s.partVisibility partId).getD true)
  else
    match alookup s.vertexVbos 0 with
    | some (some _) => [0]
    | _ => if s.mesh.isSome then [0] else []

/-- Copy of a GLTF asset with every accessor's `normalized` flag set to `b`;
used to state that the decoder never reads the flag. -/
def setNormalizedFlags (g : Gltf) (b : Bool) : Gltf :=
  { g with accessors := g.accessors.map (fun a => { a with normalized := b }) }

/-- Every lookup key in the visibility map refers to a loaded part. -/
def visBounded (s : ViewerState) : Prop :=
  ∀ id, (alookup s.partVisibility id).isSome = true → id < s.meshes.length

/-! ## Concrete fixtures

Small assets and viewer states used to evaluate the embedding at concrete
inputs.  Byte lists are little-endian: `[0, 0, 128, 63]` is the float32 `1.0`
and `[0, 64]` is the float16 `2.0` (bit pattern `0x4000`). -/

/-- `ModelViewer.__init__(model_path, part_visibility)`: a fresh instance. -/
def initState (path : String) (vis : List (Nat × Bool)) : ViewerState :=
  { modelPath := path, mesh := none, meshes := [], textureIds := []
    materialMap := [], partVisibility := vis, partNames := [], vertexVbos := []
    uvVbos := [], normalVbos := [], indexBuffers := [], numFaces := [] }

/-- A primitive with only a POSITION attribute (accessor 0). -/
def primPosOnly : Primitive :=
  { position := some 0, normal := none, texcoord0 := none, indices := none
    material := none }

/-- A primitive with POSITION (accessor 0) and indices (accessor 1). -/
def primPosIdx : Primitive :=
  { position := some 0, normal := none, texcoord0 := none, indices := some 1
    material := none }

/-- 12 zero bytes: one float32 vec3 vertex `(0, 0, 0)`. -/
def bufA : List Nat := List.replicate 12 0

/-- Single-primitive asset: one float32 position, no indices. -/
def gltfA : Gltf :=
  { buffers := [{ uri := some "buf.bin" }]
    bufferViews := [{ byteOffset := 0, byteLength := 12 }]
    accessors := [{ bufferView := 0, byteOffset := 0, count := 1
                    componentType := 5126, normalized := false }]
    meshes := [{ name := some "Body", primitives := [primPosOnly] }]
    binaryBlob := none }

def envA : Env := { files := [("m/buf.bin", bufA)], gltfs := [("m/a.gltf", gltfA)] }

/-- Two distinct asset paths sharing the external buffer, for
different-path (new-model) loads. -/
def envAB : Env :=
  { files := [("m/buf.bin", bufA)]
    gltfs := [("m/a.gltf", gltfA), ("m/b.gltf", gltfA)] }

/-- A viewer state with one loaded part, as produced by a successful load. -/
def loadedA : ViewerState := loadModel envA "m/a.gltf" (initState "m/a.gltf" [])

/-- Three float16 words `0x4000` = `2.0` (raw unsigned shorts `16384`). -/
def bufC5 : List Nat := [0, 64, 0, 64, 0, 64]

/-- Asset whose POSITION accessor is a normalized unsigned-short (5123)
vec3 with one element. -/
def gltfC5 : Gltf :=
  { buffers := [{ uri := some "buf5.bin" }]
    bufferViews := [{ byteOffset := 0, byteLength := 6 }]
    accessors := [{ bufferView := 0, byteOffset := 0, count := 1
                    componentType := 5123, normalized := true }]
    meshes := [{ name := none, primitives := [primPosOnly] }]
    binaryBlob := none }

def envC5 : Env := { files := [("m/buf5.bin", bufC5)], gltfs := [("m/c5.gltf", gltfC5)] }

/-- Three float32 vec3 vertices `(0,0,0)`, `(1,0,0)`, `(0,1,0)`. -/
def vtx3bytes : List Nat :=
  [0, 0, 0, 0, 0, 0, 0, 0, 0, 0, 0, 0,
   0, 0, 128, 63, 0, 0, 0, 0, 0, 0, 0, 0,
   0, 0, 0, 0, 0, 0, 128, 63, 0, 0, 0, 0]

/-- Asset with three vertices and no index accessor. -/
def gltfC6 : Gltf :=
  { buffers := [{ uri := some "c6.bin" }]
    bufferViews := [{ byteOffset := 0, byteLength := 36 }]
    accessors := [{ bufferView := 0, byteOffset := 0, count := 3
                    componentType := 5126, normalized := false }]
    meshes := [{ name := some "NoIdx", primitives := [primPosOnly] }]
    binaryBlob := none }

def envC6 : Env := { files := [("m/c6.bin", vtx3bytes)], gltfs := [("m/c6.gltf", gltfC6)] }

/-- Three vertices plus six unsigned-short indices `[0,1,2,2,1,0]`. -/
def bufC6i : List Nat := vtx3bytes ++ [0, 0, 1, 0, 2, 0, 2, 0, 1, 0, 0, 0]

def gltfC6i : Gltf :=
  { buffers := [{ uri := some "c6i.bin" }]
    bufferViews := [{ byteOffset := 0, byteLength := 36 },
                    { byteOffset := 36, byteLength := 12 }]
    accessors := [{ bufferView := 0, byteOffset := 0, count := 3
                    componentType := 5126, normalized := false },
                  { bufferView := 1, byteOffset := 0, count := 6
                    componentType := 5123, normalized := false }]
    meshes := [{ name := some "Idx", primitives := [primPosIdx] }]
    binaryBlob := none }

def envC6i : Env := { files := [("m/c6i.bin", bufC6i)], gltfs := [("m/c6i.gltf", gltfC6i)] }

/-- Three vertices plus 12 index bytes decoded below under an accessor whose
component type 5124 (4-byte signed) is outside the supported set. -/
def bufC7 : List Nat := vtx3bytes ++ [0, 0, 0, 0, 1, 0, 0, 0, 2, 0, 0, 0]

def accC7 : Accessor :=
  { bufferView := 1, byteOffset := 0, count := 3, componentType := 5124
    normalized := false }

def gltfC7 : Gltf :=
  { buffers := [{ uri := some "c7.bin" }]
    bufferViews := [{ byteOffset := 0, byteLength := 36 },
                    { byteOffset := 36, byteLength := 12 }]
    accessors := [{ bufferView := 0, byteOffset := 0, count := 3
                    componentType := 5126, normalized := false },
                  accC7]
    meshes := [{ name := some "BadIdxType", primitives := [primPosIdx] }]
    binaryBlob := none }

def envC7 : Env := { files := [("m/c7.bin", bufC7)], gltfs := [("m/c7.gltf", gltfC7)] }

/-- Extraction result for the no-index asset `gltfC6`. -/
def meshC6noidx : PartMesh :=
  { vertices := [(0, 0, 0), (1, 0, 0), (0, 1, 0)], faces := []
    vertexNormals := none, uv := none }

/-- Extraction result for the indexed asset `gltfC6i`. -/
def meshC6i : PartMesh :=
  { vertices := [(0, 0, 0), (1, 0, 0), (0, 1, 0)]
    faces := [(0, 1, 2), (2, 1, 0)], vertexNormals := none, uv := none }

/-- A mesh whose vertices are all the same point. -/
def meshC8 : PartMesh :=
  { vertices := [(1, 2, 3), (1, 2, 3)], faces := [], vertexNormals := none, uv := none }

def stateC8 : ViewerState := { initState "x.gltf" [] with meshes := [meshC8] }

/-- Asset referencing an external buffer file that does not exist. -/
def gltfC9 : Gltf :=
  { buffers := [{ uri := some "missing.bin" }]
    bufferViews := [{ byteOffset := 0, byteLength := 12 }]
    accessors := [{ bufferView := 0, byteOffset := 0, count := 1
                    componentType := 5126, normalized := false }]
    meshes := [{ name := none, primitives := [primPosOnly] }]
    binaryBlob := none }

def envC9 : Env := { files := [], gltfs := [("m/c9.gltf", gltfC9)] }

/-! ## Structural lemmas about the load pipeline -/

theorem createVbos_partVisibility (s : ViewerState) (partId : Nat) (mesh : PartMesh) :
    (createVbosForPart s partId mesh).partVisibility = s.partVisibility := rfl

theorem createVbos_meshes (s : ViewerState) (partId : Nat) (mesh : PartMesh) :
    (createVbosForPart s partId mesh).meshes = s.meshes := rfl

theorem applyVis_meshes (original : List (Nat × Bool)) (isSameModel : Bool) (s : ViewerState) :
    (applyVisibilitySettings original isSameModel s).meshes = s.meshes := rfl

/-- `loadPrimitive` either leaves meshes and visibility alone (failed
extraction) or appends the extracted mesh and defaults its id's visibility. -/
theorem loadPrimitive_cases (env : Env) (path : String) (gltf : Gltf)
    (s : ViewerState) (e : (Nat × GltfMesh) × (Nat × Primitive)) :
    ((loadPrimitive env path gltf s e).partVisibility = s.partVisibility ∧
      (loadPrimitive env path gltf s e).meshes = s.meshes ∧
      extractPrimitiveMesh env path gltf e.2.2 = none) ∨
    (∃ mesh, extractPrimitiveMesh env path gltf e.2.2 = some mesh ∧
      (loadPrimitive env path gltf s e).meshes = s.meshes ++ [mesh] ∧
      (loadPrimitive env path gltf s e).partVisibility =
        (if (alookup s.partVisibility s.meshes.length).isSome = true
         then s.partVisibility
         else ainsert s.partVisibility s.meshes.length true)) := by
  unfold loadPrimitive
  cases hmat : e.2.2.material <;>
    cases hext : extractPrimitiveMesh env path gltf e.2.2 <;>
      simp [hmat, hext, createVbosForPart]

theorem loadPrimitive_visBounded (env : Env) (path : String) (gltf : Gltf)
    (s : ViewerState) (e : (Nat × GltfMesh) × (Nat × Primitive))
    (h : visBounded s) : visBounded (loadPrimitive env path gltf s e) := by
  rcases loadPrimitive_cases env path gltf s e with ⟨hv, hm, _⟩ | ⟨mesh, _, hm, hv⟩
  · intro id hid
    rw [hv] at hid
    rw [hm]
    exact h id hid
  · intro id hid
    rw [hv] at hid
    rw [hm, List.length_append, List.length_singleton]
    by_cases hcase : (alookup s.partVisibility s.meshes.length).isSome = true
    · rw [if_pos hcase] at hid
      have := h id hid
      omega
    · rw [if_neg hcase, alookup_ainsert] at hid
      by_cases hide : id = s.meshes.length
      · omega
      · rw [if_neg hide] at hid
        have := h id hid
        omega

theorem foldl_loadPrimitive_visBounded (env : Env) (path : String) (gltf : Gltf)
    (L : List ((Nat × GltfMesh) × (Nat × Primitive))) (s : ViewerState)
    (h : visBounded s) : visBounded (L.foldl (loadPrimitive env path gltf) s) := by
  induction L generalizing s with
  | nil => exact h
  | cons e tl ih =>
    rw [List.foldl_cons]
    exact ih _ (loadPrimitive_visBounded env path gltf s e h)

theorem scaleStep_partVisibility (c : ℚ) (t : ℚ × ℚ × ℚ) (s : ViewerState) (partId : Nat) :
    (scaleStep c t s partId).partVisibility = s.partVisibility := by
  unfold scaleStep
  split
  · rfl
  · split
    · dsimp only
      split
      · rfl
      · rfl
    · rfl

theorem scaleStep_meshes_length (c : ℚ) (t : ℚ × ℚ × ℚ) (s : ViewerState) (partId : Nat) :
    (scaleStep c t s partId).meshes.length = s.meshes.length := by
  unfold scaleStep
  split
  · rfl
  · split
    · dsimp only
      split
      · simp [createVbosForPart, List.length_set]
      · simp [List.length_set]
    · rfl

theorem foldl_scaleStep_partVisibility (c : ℚ) (t : ℚ × ℚ × ℚ)
    (L : List Nat) (s : ViewerState) :
    (L.foldl (scaleStep c t) s).partVisibility = s.partVisibility := by
  induction L generalizing s with
  | nil => rfl
  | cons a tl ih => rw [List.foldl_cons, ih, scaleStep_partVisibility]

theorem foldl_scaleStep_meshes_length (c : ℚ) (t : ℚ × ℚ × ℚ)
    (L : List Nat) (s : ViewerState) :
    (L.foldl (scaleStep c t) s).meshes.length = s.meshes.length := by
  induction L generalizing s with
  | nil => rfl
  | cons a tl ih => rw [List.foldl_cons, ih, scaleStep_meshes_length]

theorem scaleModel_partVisibility (s : ViewerState) :
    (scaleModel s).partVisibility = s.partVisibility := by
  unfold scaleModel
  split
  · rfl
  · split
    · rfl
    · dsimp only
      split
      · rfl
      · exact foldl_scaleStep_partVisibility _ _ _ _

theorem scaleModel_meshes_length (s : ViewerState) :
    (scaleModel s).meshes.length = s.meshes.length := by
  unfold scaleModel
  split
  · rfl
  · split
    · rfl
    · dsimp only
      split
      · rfl
      · exact foldl_scaleStep_meshes_length _ _ _ _

theorem loadGltfModel_visBounded (env : Env) (path : String) (s : ViewerState)
    (h : visBounded s) : visBounded (loadGltfModel env path s) := by
  unfold loadGltfModel
  cases hf : env.findGltf path with
  | none => exact h
  | some gltf =>
    simp only
    split
    · exact h
    · have h1 : visBounded ((primList gltf).foldl (loadPrimitive env path gltf) s) :=
        foldl_loadPrimitive_visBounded env path gltf (primList gltf) s h
      split
      · exact h1
      · intro id hid
        rw [scaleModel_partVisibility] at hid
        rw [scaleModel_meshes_length]
        exact h1 id hid

/-- Lookup characterisation of `apply_visibility_settings`: on a state whose
visibility keys are bounded by the part count, every loaded part id maps to
its snapshot value (default `true`), and nothing else is in the map. -/
theorem applyVis_lookup (original : List (Nat × Bool)) (isSameModel : Bool)
    (s : ViewerState) (hb : visBounded s) (id : Nat) :
    alookup (applyVisibilitySettings original isSameModel s).partVisibility id =
      if id < s.meshes.length then some ((alookup original id).getD true) else none := by
  unfold applyVisibilitySettings
  simp only
  have hnone : ¬ id < s.meshes.length → alookup s.partVisibility id = none := by
    intro hlt
    cases halt : alookup s.partVisibility id with
    | none => rfl
    | some b => exact absurd (hb id (by simp [halt])) hlt
  have h1 : alookup
      ((List.range s.meshes.length).foldl
        (fun m partId => ainsert m partId ((alookup original partId).getD true))
        s.partVisibility) id =
      if id < s.meshes.length then some ((alookup original id).getD true)
      else alookup s.partVisibility id :=
    alookup_foldl_ainsert_range (fun k => (alookup original k).getD true)
      s.meshes.length s.partVisibility id
  by_cases hc : isSameModel
  · simp only [hc, if_true]
    rw [h1]
    by_cases hlt : id < s.meshes.length
    · rw [if_pos hlt, if_pos hlt]
    · rw [if_neg hlt, if_neg hlt, hnone hlt]
  · simp only [hc, Bool.false_eq_true, if_false]
    rw [alookup_foldl_aerase, h1]
    by_cases hlt : id < s.meshes.length
    · have hmem : id ∉ (akeys original).filter
          (fun k => !(List.range s.meshes.length).contains k) := by
        intro hmem
        have h2 := (List.mem_filter.mp hmem).2
        simp only [Bool.not_eq_true', List.contains, List.elem_eq_mem,
          decide_eq_false_iff_not, List.mem_range] at h2
        exact h2 hlt
      rw [if_neg hmem, if_pos hlt, if_pos hlt]
    · by_cases hmem : id ∈ (akeys original).filter
          (fun k => !(List.range s.meshes.length).contains k)
      · rw [if_pos hmem, if_neg hlt]
      · rw [if_neg hmem, if_neg hlt, hnone hlt, if_neg hlt]

/-- Central characterisation of a completed GLTF load: afterwards the
visibility map holds exactly the loaded part ids, each mapped to its
pre-load snapshot value when present and `true` otherwise. -/
theorem loadModel_vis_lookup (env : Env) (path : String) (s : ViewerState)
    (hex : env.pathExists path = true) (hg : isGltfPath path = true) (id : Nat) :
    alookup (loadModel env path s).partVisibility id =
      if id < (loadModel env path s).meshes.length
      then some ((alookup s.partVisibility id).getD true) else none := by
  unfold loadModel
  simp only [hex, hg, Bool.true_eq_false, if_false, if_true]
  have hcb : visBounded { clearModelData s with modelPath := path } := by
    intro id hid
    simp [clearModelData, alookup] at hid
  have hb : visBounded
      (loadGltfModel env path { clearModelData s with modelPath := path }) :=
    loadGltfModel_visBounded env path _ hcb
  rw [applyVis_lookup s.partVisibility (path == s.modelPath) _ hb id, applyVis_meshes]

/-! ## Index-list regrouping lemmas (for the face-count claims) -/

theorem toTriples_length {α : Type} :
    ∀ (xs : List α) (ts : List (α × α × α)), toTriples xs = some ts →
      xs.length = 3 * ts.length
  | [], ts, h => by
    simp only [toTriples, Option.some.injEq] at h
    subst h
    rfl
  | [a], ts, h => by simp [toTriples] at h
  | [a, b], ts, h => by simp [toTriples] at h
  | a :: b :: c :: rest, ts, h => by
    simp only [toTriples, Option.map_eq_some'] at h
    obtain ⟨ts', h1, h2⟩ := h
    have ih := toTriples_length rest ts' h1
    subst h2
    simp only [List.length_cons]
    omega

theorem toTriples_flatten {α : Type} :
    ∀ (xs : List α) (ts : List (α × α × α)), toTriples xs = some ts →
      flattenTriples ts = xs
  | [], ts, h => by
    simp only [toTriples, Option.some.injEq] at h
    subst h
    rfl
  | [a], ts, h => by simp [toTriples] at h
  | [a, b], ts, h => by simp [toTriples] at h
  | a :: b :: c :: rest, ts, h => by
    simp only [toTriples, Option.map_eq_some'] at h
    obtain ⟨ts', h1, h2⟩ := h
    have ih := toTriples_flatten rest ts' h1
    subst h2
    simp [flattenTriples, ih]

/-! ## The decoder never reads the `normalized` flag -/

theorem accessors_setNormalizedFlags (g : Gltf) (b : Bool) (i : Nat) :
    (setNormalizedFlags g b).accessors[i]? =
      (g.accessors[i]?).map (fun a => { a with normalized := b }) := by
  simp [setNormalizedFlags, List.getElem?_map]

theorem resolveBufferData_setNormalizedFlags (env : Env) (path : String)
    (g : Gltf) (b : Bool) :
    resolveBufferData env path (setNormalizedFlags g b) = resolveBufferData env path g := rfl

theorem decodePositions_setNormalizedFlags (g : Gltf) (b : Bool) (bd : List Nat) (i : Nat) :
    decodePositions (setNormalizedFlags g b) bd i = decodePositions g bd i := by
  unfold decodePositions
  rw [accessors_setNormalizedFlags]
  cases g.accessors[i]? with
  | none => rfl
  | some a => rfl

theorem decodeIndexValues_setNormalizedFlags (g : Gltf) (b : Bool) (bd : List Nat) (i : Nat) :
    decodeIndexValues (setNormalizedFlags g b) bd i = decodeIndexValues g bd i := by
  unfold decodeIndexValues
  rw [accessors_setNormalizedFlags]
  cases g.accessors[i]? with
  | none => rfl
  | some a => rfl

theorem decodeNormals_setNormalizedFlags (g : Gltf) (b : Bool) (bd : List Nat) (i : Nat) :
    decodeNormals (setNormalizedFlags g b) bd i = decodeNormals g bd i := by
  unfold decodeNormals
  rw [accessors_setNormalizedFlags]
  cases g.accessors[i]? with
  | none => rfl
  | some a => rfl

theorem decodeUVs_setNormalizedFlags (g : Gltf) (b : Bool) (bd : List Nat) (i : Nat) :
    decodeUVs (setNormalizedFlags g b) bd i = decodeUVs g bd i := by
  unfold decodeUVs
  rw [accessors_setNormalizedFlags]
  cases g.accessors[i]? with
  | none => rfl
  | some a => rfl

/-! ## Extraction failure when the external buffer is absent -/

theorem extract_none_of_missing_buffer (env : Env) (path : String) (gltf : Gltf)
    (prim : Primitive) (b : GltfBuffer) (uri : String)
    (hb : gltf.buffers[0]? = some b) (huri : b.uri = some uri)
    (hread : env.readFile (pathJoin (dirname path) uri) = none) :
    extractPrimitiveMesh env path gltf prim = none := by
  unfold extractPrimitiveMesh
  by_cases hcond : (gltf.buffers.isEmpty || gltf.bufferViews.isEmpty) = true
  · rw [if_pos hcond]
  · rw [if_neg hcond]
    have hres : resolveBufferData env path gltf = none := by
      unfold resolveBufferData
      rw [hb]
      dsimp only
      rw [huri]
      exact hread
    rw [hres]
    rfl

theorem loadPrimitive_extract_none (env : Env) (path : String) (gltf : Gltf)
    (s : ViewerState) (e : (Nat × GltfMesh) × (Nat × Primitive))
    (hfail : extractPrimitiveMesh env path gltf e.2.2 = none) :
    (loadPrimitive env path gltf s e).partVisibility = s.partVisibility ∧
      (loadPrimitive env path gltf s e).meshes = s.meshes := by
  rcases loadPrimitive_cases env path gltf s e with ⟨hv, hm, _⟩ | ⟨mesh, hext, _, _⟩
  · exact ⟨hv, hm⟩
  · rw [hfail] at hext
    cases hext

theorem foldl_loadPrimitive_all_failed (env : Env) (path : String) (gltf : Gltf)
    (L : List ((Nat × GltfMesh) × (Nat × Primitive))) (s : ViewerState)
    (hfail : ∀ e ∈ L, extractPrimitiveMesh env path gltf e.2.2 = none) :
    (L.foldl (loadPrimitive env path gltf) s).partVisibility = s.partVisibility ∧
      (L.foldl (loadPrimitive env path gltf) s).meshes = s.meshes := by
  induction L generalizing s with
  | nil => exact ⟨rfl, rfl⟩
  | cons e tl ih =>
    rw [List.foldl_cons]
    have he := loadPrimitive_extract_none env path gltf s e (hfail e (by simp))
    have ht := ih (loadPrimitive env path gltf s e) (fun e' he' => hfail e' (by simp [he']))
    exact ⟨ht.1.trans he.1, ht.2.trans he.2⟩

theorem loadGltfModel_all_extract_failed (env : Env) (path : String)
    (s : ViewerState) (gltf : Gltf)
    (hfind : env.findGltf path = some gltf)
    (hfail : ∀ prim, extractPrimitiveMesh env path gltf prim = none)
    (hsm : s.meshes = []) :
    (loadGltfModel env path s).partVisibility = s.partVisibility ∧
      (loadGltfModel env path s).meshes = [] := by
  unfold loadGltfModel
  rw [hfind]
  simp only
  split
  · exact ⟨rfl, hsm⟩
  · have hfold := foldl_loadPrimitive_all_failed env path gltf (primList gltf) s
      (fun e _ => hfail e.2.2)
    split
    · exact ⟨hfold.1, hfold.2.trans hsm⟩
    · rename_i hne
      rw [hfold.2, hsm] at hne
      simp at hne

theorem foldl_aerase_nil (L : List Nat) :
    (L.foldl (fun m k => aerase m k) ([] : List (Nat × Bool))) = [] := by
  induction L with
  | nil => rfl
  | cons a tl ih => simpa [aerase] using ih

/-! ## Inverting a successful extraction -/

/-- A successful extraction with an index accessor pins the decoded index
values and their regrouping into the mesh's face list. -/
theorem extract_indices_inversion (env : Env) (path : String) (gltf : Gltf)
    (prim : Primitive) (mesh : PartMesh) (bd : List Nat) (ii : Nat)
    (hbd : resolveBufferData env path gltf = some bd)
    (hii : prim.indices = some ii)
    (hex : extractPrimitiveMesh env path gltf prim = some mesh) :
    ∃ idxVals, decodeIndexValues gltf bd ii = some idxVals ∧
      toTriples idxVals = some mesh.faces := by
  unfold extractPrimitiveMesh at hex
  by_cases hcond : (gltf.buffers.isEmpty || gltf.bufferViews.isEmpty) = true
  · rw [if_pos hcond] at hex
    cases hex
  · rw [if_neg hcond, hbd] at hex
    simp only [Option.some_bind, Option.bind_eq_some] at hex
    obtain ⟨posIdx, hpos, hex⟩ := hex
    obtain ⟨vertices, hverts, hex⟩ := hex
    obtain ⟨faces, hfaces, hex⟩ := hex
    obtain ⟨normals, hnorm, hex⟩ := hex
    obtain ⟨uv, huv, hex⟩ := hex
    rw [hii] at hfaces
    simp only [extractFaces, Option.bind_eq_some] at hfaces
    obtain ⟨idxVals, hvals, htr⟩ := hfaces
    rw [Option.some.injEq] at hex
    subst hex
    exact ⟨idxVals, hvals, htr⟩

/-- A successful extraction without an index accessor yields an empty face
list (trimesh turns `faces=None` into an empty face array). -/
theorem extract_no_indices_inversion (env : Env) (path : String) (gltf : Gltf)
    (prim : Primitive) (mesh : PartMesh)
    (hii : prim.indices = none)
    (hex : extractPrimitiveMesh env path gltf prim = some mesh) :
    mesh.faces = [] := by
  unfold extractPrimitiveMesh at hex
  by_cases hcond : (gltf.buffers.isEmpty || gltf.bufferViews.isEmpty) = true
  · rw [if_pos hcond] at hex
    cases hex
  · rw [if_neg hcond] at hex
    simp only [Option.bind_eq_some] at hex
    obtain ⟨bd, hbd, hex⟩ := hex
    obtain ⟨posIdx, hpos, hex⟩ := hex
    obtain ⟨vertices, hverts, hex⟩ := hex
    obtain ⟨faces, hfaces, hex⟩ := hex
    obtain ⟨normals, hnorm, hex⟩ := hex
    obtain ⟨uv, huv, hex⟩ := hex
    rw [hii] at hfaces
    simp only [extractFaces, Option.some.injEq] at hfaces
    rw [Option.some.injEq] at hex
    subst hex
    exact hfaces.symm

/-! ## Bounds of a constant vertex cloud -/

theorem vmin_self (p : ℚ × ℚ × ℚ) : vmin p p = p := by
  simp [vmin]

theorem vmax_self (p : ℚ × ℚ × ℚ) : vmax p p = p := by
  simp [vmax]

theorem foldl_vmin_const (p : ℚ × ℚ × ℚ) (vs : List (ℚ × ℚ × ℚ))
    (h : ∀ x ∈ vs, x = p) : vs.foldl vmin p = p := by
  induction vs with
  | nil => rfl
  | cons a tl ih =>
    have ha : a = p := h a (List.mem_cons_self a tl)
    rw [List.foldl_cons, ha, vmin_self]
    exact ih (fun x hx => h x (List.mem_cons_of_mem a hx))

theorem foldl_vmax_const (p : ℚ × ℚ × ℚ) (vs : List (ℚ × ℚ × ℚ))
    (h : ∀ x ∈ vs, x = p) : vs.foldl vmax p = p := by
  induction vs with
  | nil => rfl
  | cons a tl ih =>
    have ha : a = p := h a (List.mem_cons_self a tl)
    rw [List.foldl_cons, ha, vmax_self]
    exact ih (fun x hx => h x (List.mem_cons_of_mem a hx))

theorem extractFaces_setNormalizedFlags (g : Gltf) (b : Bool) (bd : List Nat)
    (oi : Option Nat) :
    extractFaces (setNormalizedFlags g b) bd oi = extractFaces g bd oi := by
  cases oi with
  | none => rfl
  | some ii => simp [extractFaces, decodeIndexValues_setNormalizedFlags]

theorem extractOptNormals_setNormalizedFlags (g : Gltf) (b : Bool) (bd : List Nat)
    (oi : Option Nat) :
    extractOptNormals (setNormalizedFlags g b) bd oi = extractOptNormals g bd oi := by
  cases oi with
  | none => rfl
  | some ni => simp [extractOptNormals, decodeNormals_setNormalizedFlags]

theorem extractOptUVs_setNormalizedFlags (g : Gltf) (b : Bool) (bd : List Nat)
    (oi : Option Nat) :
    extractOptUVs (setNormalizedFlags g b) bd oi = extractOptUVs g bd oi := by
  cases oi with
  | none => rfl
  | some ti => simp [extractOptUVs, decodeUVs_setNormalizedFlags]

/-! ## Claims -/

/-- C1 (corrected).  After a completed GLTF load the visibility map of every
Part id in the new load carries over the pre-load snapshot value whenever the
id existed in the snapshot — for same-model AND for different-path loads
alike — and defaults to `true` otherwise; ids outside the new load are
absent.  (The claim's "otherwise — for a different-path (new-model) load —
defaults to true" is refuted by `c1_counterexample`: the new-model branch of
`apply_visibility_settings` also carries snapshot values over.) -/
theorem c1_visibility_reconciliation (env : Env) (path : String) (s : ViewerState)
    (hex : env.pathExists path = true) (hg : isGltfPath path = true) (id : Nat) :
    alookup (loadModel env path s).partVisibility id =
      if id < (loadModel env path s).meshes.length
      then some ((alookup s.partVisibility id).getD true) else none :=
  loadModel_vis_lookup env path s hex hg id

/-- C1 witness: a concrete same-model reload carries the snapshot value. -/
theorem c1_witness :
    alookup (loadModel envAB "m/b.gltf" (initState "m/a.gltf" [(5, true)])).partVisibility 0 =
      some true := by
  have h := c1_visibility_reconciliation envAB "m/b.gltf" (initState "m/a.gltf" [(5, true)])
    (by decide) (by decide) 0
  rw [h]
  decide

/-- C1 counterexample: loading a different path (new model) with snapshot
`{0: False}` leaves part 0 hidden, not reset to `true` as the claim states. -/
theorem c1_counterexample :
    (initState "m/a.gltf" [(0, false)]).modelPath ≠ "m/b.gltf" ∧
    alookup (loadModel envAB "m/b.gltf"
        (initState "m/a.gltf" [(0, false)])).partVisibility 0 = some false ∧
    some false ≠ some true := by decide

/-- C2 (corrected).  When the requested path does not exist, `load_model`
returns before `clear_model_data` runs: the entire viewer state — prior
model, GPU resources, visibility — is unchanged, so the prior model remains
loaded and drawn (the claim's "prior model's resources have been cleared,
viewer renders nothing" is refuted by `c2_counterexample`). -/
theorem c2_aborted_load_state_unchanged (env : Env) (path : String) (s : ViewerState)
    (h : env.pathExists path = false) :
    loadModel env path s = s := by
  simp [loadModel, h]

/-- C2 witness at a concrete missing path and loaded state. -/
theorem c2_witness : loadModel envA "missing.gltf" loadedA = loadedA :=
  c2_aborted_load_state_unchanged envA "missing.gltf" loadedA (by decide)

/-- C2 counterexample: after requesting a nonexistent path on a viewer with a
loaded model, the part list is nonempty and part 0 is still drawn. -/
theorem c2_counterexample :
    envA.pathExists "missing.gltf" = false ∧
    (loadModel envA "missing.gltf" loadedA).meshes ≠ [] ∧
    drawnParts (loadModel envA "missing.gltf" loadedA) = [0] := by decide

/-- C3 (corrected).  `clear_model_data` empties every resource record —
texture handles, vertex/normal/UV buffer objects, index arrays, face counts,
part names — is idempotent and safe on an empty state, but it also RESETS
the Visibility Map to empty (`self.part_visibility = {}` at line 307),
contrary to the claim's "leaves the Visibility Map unchanged", refuted by
`c3_counterexample`. -/
theorem c3_clear_model_data_spec (s : ViewerState) :
    (clearModelData s).textureIds = [] ∧
    (clearModelData s).vertexVbos = [] ∧
    (clearModelData s).uvVbos = [] ∧
    (clearModelData s).normalVbos = [] ∧
    (clearModelData s).indexBuffers = [] ∧
    (clearModelData s).numFaces = [] ∧
    (clearModelData s).partNames = [] ∧
    (clearModelData s).materialMap = [] ∧
    (clearModelData s).meshes = [] ∧
    (clearModelData s).mesh = none ∧
    (clearModelData s).modelPath = s.modelPath ∧
    (clearModelData s).partVisibility = [] ∧
    clearModelData (clearModelData s) = clearModelData s :=
  ⟨rfl, rfl, rfl, rfl, rfl, rfl, rfl, rfl, rfl, rfl, rfl, rfl, rfl⟩

/-- C3 counterexample: clearing a state whose visibility map is `{0: False}`
does not leave the Visibility Map unchanged — it empties it. -/
theorem c3_counterexample :
    (clearModelData (initState "m/a.gltf" [(0, false)])).partVisibility = [] ∧
    (initState "m/a.gltf" [(0, false)]).partVisibility = [(0, false)] ∧
    ([] : List (Nat × Bool)) ≠ [(0, false)] := by decide

/-- C4 (confirmed).  Reloading the currently loaded path with the visibility
map untouched reproduces the pre-reload snapshot value for every part id
present in both loads. -/
theorem c4_same_model_roundtrip (env : Env) (s : ViewerState) (id : Nat) (b : Bool)
    (hex : env.pathExists s.modelPath = true) (hg : isGltfPath s.modelPath = true)
    (hb : alookup s.partVisibility id = some b)
    (hid : id < (loadModel env s.modelPath s).meshes.length) :
    alookup (loadModel env s.modelPath s).partVisibility id = some b := by
  rw [loadModel_vis_lookup env s.modelPath s hex hg id, if_pos hid, hb]
  rfl

/-- C4 witness: a hidden part 0 stays hidden across a same-path reload. -/
theorem c4_witness :
    alookup (loadModel envA "m/a.gltf"
        (initState "m/a.gltf" [(0, false)])).partVisibility 0 = some false :=
  c4_same_model_roundtrip envA (initState "m/a.gltf" [(0, false)]) 0 false
    (by decide) (by decide) (by decide) (by decide)

/-- C5 (corrected).  The decoder never reads the accessor's `normalized`
flag: extraction is invariant under rewriting every accessor's flag, so no
rescaling by 127/255/32767/65535 ever happens.  (A normalized integer
accessor is instead reinterpreted under the substituted dtype — float16 for
non-float positions, float32 for normals and UVs — see
`c5_counterexample`.) -/
theorem c5_normalized_flag_ignored (env : Env) (path : String) (g : Gltf)
    (prim : Primitive) (b : Bool) :
    extractPrimitiveMesh env path (setNormalizedFlags g b) prim =
      extractPrimitiveMesh env path g prim := by
  unfold extractPrimitiveMesh
  have h1 : (setNormalizedFlags g b).buffers = g.buffers := rfl
  have h2 : (setNormalizedFlags g b).bufferViews = g.bufferViews := rfl
  rw [h1, h2, resolveBufferData_setNormalizedFlags]
  by_cases hcond : (g.buffers.isEmpty || g.bufferViews.isEmpty) = true
  · rw [if_pos hcond, if_pos hcond]
  · rw [if_neg hcond, if_neg hcond]
    simp only [decodePositions_setNormalizedFlags, extractFaces_setNormalizedFlags,
      extractOptNormals_setNormalizedFlags, extractOptUVs_setNormalizedFlags]

/-- C5 counterexample: a POSITION accessor marked normalized with unsigned
short components (5123), whose single element is the raw value 16384 in each
component, decodes to `(2, 2, 2)` — the bytes are reinterpreted as float16 —
where the claim demands `16384 / 65535 ∈ [0, 1]`; the emitted `2` is outside
`[0, 1]` and differs from `16384 / 65535`. -/
theorem c5_counterexample :
    gltfC5.accessors.map Accessor.normalized = [true] ∧
    gltfC5.accessors.map Accessor.componentType = [5123] ∧
    (extractPrimitiveMesh envC5 "m/c5.gltf" gltfC5 primPosOnly).map
      (fun m => m.vertices) = some [(2, 2, 2)] ∧
    ¬ ((2 : ℚ) ≤ 1) ∧ (2 : ℚ) ≠ 16384 / 65535 := by decide

/-- C6 (corrected).  For a successfully extracted primitive WITH an index
list: face count = index count / 3, the recorded index buffer is exactly the
decoded index list, and the draw call requests exactly index-count indices.
WITHOUT an index list: the face list is empty, the face count is 0, and an
indexed draw of 0 indices is issued — not a non-indexed draw covering all
vertices as the claim states (refuted by `c6_counterexample`). -/
theorem c6_face_count_draw (env : Env) (path : String) (gltf : Gltf)
    (prim : Primitive) (mesh : PartMesh) (bd : List Nat)
    (s : ViewerState) (partId : Nat)
    (hbd : resolveBufferData env path gltf = some bd)
    (hex : extractPrimitiveMesh env path gltf prim = some mesh) :
    (∀ ii idxVals, prim.indices = some ii →
      decodeIndexValues gltf bd ii = some idxVals →
      mesh.faces.length = idxVals.length / 3 ∧
      alookup (createVbosForPart s partId mesh).numFaces partId =
        some (idxVals.length / 3) ∧
      alookup (createVbosForPart s partId mesh).indexBuffers partId =
        some (some idxVals) ∧
      drawCommand (createVbosForPart s partId mesh) partId =
        DrawCmd.elements idxVals.length) ∧
    (prim.indices = none →
      mesh.faces = [] ∧
      alookup (createVbosForPart s partId mesh).numFaces partId = some 0 ∧
      drawCommand (createVbosForPart s partId mesh) partId =
        DrawCmd.elements 0) := by
  have hnf : alookup (createVbosForPart s partId mesh).numFaces partId =
      some mesh.faces.length := by
    simp [createVbosForPart, alookup_ainsert]
  have hib : alookup (createVbosForPart s partId mesh).indexBuffers partId =
      some (some (flattenTriples mesh.faces)) := by
    simp [createVbosForPart, alookup_ainsert]
  constructor
  · intro ii idxVals hii hvals
    obtain ⟨idxVals', hvals', htr⟩ :=
      extract_indices_inversion env path gltf prim mesh bd ii hbd hii hex
    rw [hvals] at hvals'
    rw [Option.some.injEq] at hvals'
    subst hvals'
    have hlen := toTriples_length idxVals mesh.faces htr
    have hflat := toTriples_flatten idxVals mesh.faces htr
    refine ⟨by omega, ?_, ?_, ?_⟩
    · rw [hnf]
      congr 1
      omega
    · rw [hib, hflat]
    · unfold drawCommand
      rw [hib]
      dsimp only
      rw [hnf]
      dsimp only [Option.getD]
      congr 1
      omega
  · intro hii
    have hempty := extract_no_indices_inversion env path gltf prim mesh hii hex
    refine ⟨hempty, ?_, ?_⟩
    · rw [hnf, hempty]
      rfl
    · unfold drawCommand
      rw [hib]
      dsimp only
      rw [hnf, hempty]
      rfl

/-- C6 witness: three vertices with six unsigned-short indices give face
count 2, an index buffer of the six decoded indices, and a draw of exactly
6 indices. -/
theorem c6_witness :
    alookup (createVbosForPart (initState "m/c6i.gltf" []) 0 meshC6i).numFaces 0 =
      some 2 ∧
    alookup (createVbosForPart (initState "m/c6i.gltf" []) 0 meshC6i).indexBuffers 0 =
      some (some [0, 1, 2, 2, 1, 0]) ∧
    drawCommand (createVbosForPart (initState "m/c6i.gltf" []) 0 meshC6i) 0 =
      DrawCmd.elements 6 := by
  have h := (c6_face_count_draw envC6i "m/c6i.gltf" gltfC6i primPosIdx meshC6i bufC6i
    (initState "m/c6i.gltf" []) 0 (by decide) (by decide)).1
    1 [0, 1, 2, 2, 1, 0] (by decide) (by decide)
  exact ⟨h.2.1, h.2.2.1, h.2.2.2⟩

/-- C6 counterexample: a primitive with 3 vertices and no index list gets
face count 0 (not vertex count / 3 = 1) and an indexed draw of 0 indices
(not a non-indexed draw covering the 3 vertices), so nothing is drawn. -/
theorem c6_counterexample :
    (extractPrimitiveMesh envC6 "m/c6.gltf" gltfC6 primPosOnly).map
      (fun m => m.vertices.length) = some 3 ∧
    (extractPrimitiveMesh envC6 "m/c6.gltf" gltfC6 primPosOnly).map
      (fun m => m.faces.length) = some 0 ∧
    (0 : Nat) ≠ 3 / 3 ∧
    drawCommand (createVbosForPart (initState "m/c6.gltf" []) 0 meshC6noidx) 0 =
      DrawCmd.elements 0 ∧
    DrawCmd.elements 0 ≠ DrawCmd.arrays 3 := by decide

/-- C7 (corrected).  An index accessor whose component type is not one of
5121/5123/5125 is NOT rejected: the dictionary lookup falls back to the
substituted 4-byte unsigned dtype and the bytes are decoded under it, so the
primitive is kept, not skipped (refuted concretely by `c7_counterexample`). -/
theorem c7_unsupported_index_type_substituted (gltf : Gltf) (bd : List Nat)
    (ii : Nat) (acc : Accessor)
    (hacc : gltf.accessors[ii]? = some acc)
    (h1 : acc.componentType ≠ 5121) (h2 : acc.componentType ≠ 5123) :
    decodeIndexValues gltf bd ii =
      (gltf.bufferViews[acc.bufferView]?).bind (fun bv =>
        (chunkExact 4 (sliceBytes bd (bv.byteOffset + acc.byteOffset) bv.byteLength)).map
          (fun cs => cs.map leVal)) := by
  unfold decodeIndexValues
  rw [hacc]
  dsimp only [Option.some_bind]
  cases gltf.bufferViews[acc.bufferView]? with
  | none => rfl
  | some bv => simp [idxWidth, h1, h2]

/-- C7 witness: the unsupported component type 5124 decodes 12 bytes into
three 4-byte unsigned values. -/
theorem c7_witness : decodeIndexValues gltfC7 bufC7 1 = some [0, 1, 2] := by
  rw [c7_unsupported_index_type_substituted gltfC7 bufC7 1 accC7 (by decide)
    (by decide) (by decide)]
  decide

/-- C7 counterexample: an index accessor of component type 5124 (outside the
supported set) does not make the primitive fail — extraction succeeds and the
faces are silently decoded under the substituted 32-bit unsigned dtype. -/
theorem c7_counterexample :
    accC7.componentType = 5124 ∧
    extractPrimitiveMesh envC7 "m/c7.gltf" gltfC7 primPosIdx ≠ none ∧
    (extractPrimitiveMesh envC7 "m/c7.gltf" gltfC7 primPosIdx).map
      (fun m => m.faces) = some [(0, 1, 2)] := by decide

/-- C8 (confirmed).  When every vertex of every loaded part is the same
point — a single point or coincident vertices, i.e. zero-extent bounds —
`scale_model` returns without touching any vertex: the scaling is skipped
entirely, no division by zero occurs. -/
theorem c8_degenerate_bounds_identity (s : ViewerState) (p : ℚ × ℚ × ℚ)
    (h : ∀ v ∈ allVerticesOf s.meshes, v = p) :
    scaleModel s = s := by
  unfold scaleModel
  split
  · rfl
  · split
    · rfl
    · rename_i heq
      dsimp only
      rename_i v vs
      have hv : v = p := h v (by rw [heq]; exact List.mem_cons_self v vs)
      have hvs : ∀ x ∈ vs, x = p := fun x hx =>
        h x (by rw [heq]; exact List.mem_cons_of_mem v hx)
      have hmin : vs.foldl vmin v = p := by rw [hv]; exact foldl_vmin_const p vs hvs
      have hmax : vs.foldl vmax v = p := by rw [hv]; exact foldl_vmax_const p vs hvs
      rw [hmin, hmax]
      have hz : vsub p p = (0, 0, 0) := by simp [vsub]
      rw [hz]
      have hm : maxComp (0, 0, 0) = 0 := by simp [maxComp]
      rw [hm]
      simp

/-- C8 witness: a mesh of two coincident vertices is left untouched. -/
theorem c8_witness : scaleModel stateC8 = stateC8 :=
  c8_degenerate_bounds_identity stateC8 (1, 2, 3) (by decide)

/-- C9 (corrected).  Loading an asset whose referenced external buffer file
is absent yields zero Parts and leaves the state machine total (no crash in
the embedding), but the Visibility Map is NOT unchanged: `clear_model_data`
empties it at the start of the load and nothing restores it, so the final
map is empty (refuted concretely by `c9_counterexample`). -/
theorem c9_missing_buffer_clears (env : Env) (path : String) (s : ViewerState)
    (gltf : Gltf) (b : GltfBuffer) (uri : String)
    (hex : env.pathExists path = true) (hg : isGltfPath path = true)
    (hfind : env.findGltf path = some gltf)
    (hb : gltf.buffers[0]? = some b) (huri : b.uri = some uri)
    (hread : env.readFile (pathJoin (dirname path) uri) = none) :
    (loadModel env path s).meshes = [] ∧
      (loadModel env path s).partVisibility = [] := by
  have hfail : ∀ prim, extractPrimitiveMesh env path gltf prim = none :=
    fun prim => extract_none_of_missing_buffer env path gltf prim b uri hb huri hread
  unfold loadModel
  simp only [hex, hg, Bool.true_eq_false, if_false, if_true]
  have hgl := loadGltfModel_all_extract_failed env path
    { clearModelData s with modelPath := path } gltf hfind hfail rfl
  constructor
  · rw [applyVis_meshes]
    exact hgl.2
  · unfold applyVisibilitySettings
    simp only
    rw [hgl.2, hgl.1]
    simp [clearModelData, foldl_aerase_nil]

/-- C9 witness applied at the concrete asset with a deleted buffer file. -/
theorem c9_witness :
    (loadModel envC9 "m/c9.gltf" (initState "other.glb" [(0, false)])).meshes = [] ∧
    (loadModel envC9 "m/c9.gltf" (initState "other.glb" [(0, false)])).partVisibility = [] :=
  c9_missing_buffer_clears envC9 "m/c9.gltf" (initState "other.glb" [(0, false)])
    gltfC9 { uri := some "missing.bin" } "missing.bin"
    (by decide) (by decide) (by decide) (by decide) (by decide) (by decide)

/-- C9 counterexample: the pre-load visibility map `{0: False}` is wiped to
the empty map by the failed load, so it is not "unchanged from its state
before the attempted load". -/
theorem c9_counterexample :
    (initState "other.glb" [(0, false)]).partVisibility = [(0, false)] ∧
    (loadModel envC9 "m/c9.gltf" (initState "other.glb" [(0, false)])).partVisibility = [] ∧
    ([] : List (Nat × Bool)) ≠ [(0, false)] := by decide

/-- C10 (confirmed).  After every completed GLTF load — same path or not,
whatever visibility map was supplied beforehand — the key set of the
Visibility Map is exactly the set of successfully loaded part ids
`{0, ..., N-1}`: an id has an entry iff it indexes a loaded part. -/
theorem c10_visibility_key_invariant (env : Env) (path : String) (s : ViewerState)
    (hex : env.pathExists path = true) (hg : isGltfPath path = true) (id : Nat) :
    ((alookup (loadModel env path s).partVisibility id).isSome = true ↔
      id < (loadModel env path s).meshes.length) := by
  rw [loadModel_vis_lookup env path s hex hg id]
  by_cases h : id < (loadModel env path s).meshes.length <;> simp [h]

/-- C10 witness: the single loaded part id 0 is in the map. -/
theorem c10_witness :
    (alookup (loadModel envA "m/a.gltf"
        (initState "m/a.gltf" [(7, false)])).partVisibility 0).isSome = true :=
  (c10_visibility_key_invariant envA "m/a.gltf" (initState "m/a.gltf" [(7, false)])
    (by decide) (by decide) 0).mpr (by decide)

end Aina
